import Mathlib

/-!
Shallow embedding of the foreign resource registry in
`src/native/duckling/src/lib.rs`: process-wide tables mapping integer
identifiers to native DuckDB objects, and the NIF entry points
`open`, `close`, `query`, `number_of_threads` that operate on them.

The DuckDB engine itself (its `Config` builder, `Connection::open*`,
`prepare`, `Statement::query`) is an external collaborator; its outcomes
are passed in as explicit oracle arguments, and its configuration object
is modelled as a record of the settings the wrapper applies.

Rust panics (a failing `.unwrap()`) are modelled as a distinguished
`panic` outcome that leaves the state unchanged.
-/

namespace Duckling

/-- An Erlang term as seen by the NIF decoders: an atom, an integer, or
a binary.  Erlang booleans are the atoms `true` / `false`. -/
inductive Term where
  | atom (a : String)
  | int (n : Int)
  | binary (b : String)
deriving DecidableEq

/-- `rustler::Atom::decode`: succeeds exactly on atom terms. -/
def decodeAtom : Term → Option String
  | .atom a => some a
  | _ => none

/-- `u32::decode`: succeeds exactly on integer terms in `[0, 2^32)`. -/
def decodeU32 : Term → Option Nat
  | .int n => if 0 ≤ n ∧ n < 4294967296 then some n.toNat else none
  | _ => none

/-- `bool::decode`: succeeds exactly on the atoms `true` and `false`. -/
def decodeBool : Term → Option Bool
  | .atom a => if a = "true" then some true else if a = "false" then some false else none
  | _ => none

/-- The `config_settings : HashMap<Term, Term>` argument of `open`,
keyed by the atom name (`config_settings.get(&key().encode(env))`). -/
abbrev ConfigMap := String → Option Term

/-- The configuration map with one key deleted (used to state that a
key is treated as if absent). -/
def removeKey (cfg : ConfigMap) (k : String) : ConfigMap :=
  fun j => if j = k then none else cfg j

/-- `duckdb::AccessMode`. -/
inductive AccessMode where
  | Automatic
  | ReadOnly
  | ReadWrite
deriving DecidableEq

/-- `duckdb::DefaultOrder`. -/
inductive DefaultOrder where
  | Asc
  | Desc
deriving DecidableEq

/-- `duckdb::DefaultNullOrder`. -/
inductive DefaultNullOrder where
  | NullsFirst
  | NullsLast
deriving DecidableEq

/-- The native `duckdb::Config` builder, modelled as the record of
settings applied to it.  The builder methods return `Result` in Rust but
only record the setting; they are modelled as field updates. -/
structure Config where
  accessMode : Option AccessMode
  maxMemory : Option String
  threads : Option Int
  defaultOrder : Option DefaultOrder
  defaultNullOrder : Option DefaultNullOrder
  enableExternalAccess : Option Bool
  enableObjectCache : Option Bool
  allowUnsignedExtensions : Bool
deriving DecidableEq

/-- `Config::default()`: nothing set. -/
def Config.default : Config :=
  ⟨none, none, none, none, none, none, none, false⟩

/-- The `access_mode` step of `open`'s config build: an atom value among
`automatic` / `read_only` / `read_write` sets the mode; a non-atom value
(`Err(_)`) or an unrecognized atom leaves the config unchanged. -/
def applyAccessMode (cfg : ConfigMap) (config : Config) : Config :=
  match cfg "access_mode" with
  | some val =>
    match decodeAtom val with
    | some a =>
      if a = "automatic" then { config with accessMode := some AccessMode.Automatic }
      else if a = "read_only" then { config with accessMode := some AccessMode.ReadOnly }
      else if a = "read_write" then { config with accessMode := some AccessMode.ReadWrite }
      else config
    | none => config
  | none => config

/-- The `maximum_memory` step: `Config::max_memory(config,
&(u32::decode(*val).unwrap().to_string() + "b"))`.  A value that fails
to decode as `u32` panics (`none`). -/
def applyMaximumMemory (cfg : ConfigMap) (config : Config) : Option Config :=
  match cfg "maximum_memory" with
  | some val => (decodeU32 val).map fun n => { config with maxMemory := some (toString n ++ "b") }
  | none => some config

/-- The `maximum_threads` step: records the decoded value both in the
config (`Config::threads`) and in the `thread_count` local (initialized
to `0` before the build).  A value that fails to decode as `u32` panics
(`none`). -/
def applyMaximumThreads (cfg : ConfigMap) (config : Config) : Option (Config × Nat) :=
  match cfg "maximum_threads" with
  | some val => (decodeU32 val).map fun n => ({ config with threads := some (Int.ofNat n) }, n)
  | none => some (config, 0)

/-- The `default_order_type` step: atom `asc` / `desc` sets the order;
a non-atom or unrecognized atom leaves the config unchanged. -/
def applyDefaultOrderType (cfg : ConfigMap) (config : Config) : Config :=
  match cfg "default_order_type" with
  | some val =>
    match decodeAtom val with
    | some a =>
      if a = "asc" then { config with defaultOrder := some DefaultOrder.Asc }
      else if a = "desc" then { config with defaultOrder := some DefaultOrder.Desc }
      else config
    | none => config
  | none => config

/-- The `default_null_order` step: atom `nulls_firs` (sic, as in the
source) / `nulls_last` sets the null order; a non-atom or unrecognized
atom leaves the config unchanged. -/
def applyDefaultNullOrder (cfg : ConfigMap) (config : Config) : Config :=
  match cfg "default_null_order" with
  | some val =>
    match decodeAtom val with
    | some a =>
      if a = "nulls_firs" then { config with defaultNullOrder := some DefaultNullOrder.NullsFirst }
      else if a = "nulls_last" then { config with defaultNullOrder := some DefaultNullOrder.NullsLast }
      else config
    | none => config
  | none => config

/-- The `enable_external_access` step: `bool::decode(*val).unwrap()`
panics (`none`) on a value that is not a boolean. -/
def applyEnableExternalAccess (cfg : ConfigMap) (config : Config) : Option Config :=
  match cfg "enable_external_access" with
  | some val => (decodeBool val).map fun b => { config with enableExternalAccess := some b }
  | none => some config

/-- The `object_cache_enable` step: `bool::decode(*val).unwrap()`
panics (`none`) on a value that is not a boolean. -/
def applyObjectCacheEnable (cfg : ConfigMap) (config : Config) : Option Config :=
  match cfg "object_cache_enable" with
  | some val => (decodeBool val).map fun b => { config with enableObjectCache := some b }
  | none => some config

/-- The `allow_unsigned_extensions` step: `bool::decode(*val).unwrap()`
panics (`none`) on a non-boolean; `true` sets the flag, `false` leaves
the config unchanged. -/
def applyAllowUnsignedExtensions (cfg : ConfigMap) (config : Config) : Option Config :=
  match cfg "allow_unsigned_extensions" with
  | some val =>
    (decodeBool val).map fun b =>
      if b then { config with allowUnsignedExtensions := true } else config
  | none => some config

/-- The whole configuration-building prefix of `open` (lines 137-212 of
`lib.rs`), in source order, returning the built config and the
`thread_count` local, or `none` if any `.unwrap()` on a decode
panicked. -/
def buildConfig (cfg : ConfigMap) : Option (Config × Nat) :=
  (applyMaximumMemory cfg (applyAccessMode cfg Config.default)).bind fun c1 =>
    (applyMaximumThreads cfg c1).bind fun ct =>
      (applyEnableExternalAccess cfg
          (applyDefaultNullOrder cfg (applyDefaultOrderType cfg ct.1))).bind fun c4 =>
        (applyObjectCacheEnable cfg c4).bind fun c5 =>
          (applyAllowUnsignedExtensions cfg c5).map fun c6 => (c6, ct.2)

/-- Opaque native connection object produced by the engine. -/
structure NativeConn where
  token : Nat
deriving DecidableEq

/-- Opaque native prepared statement produced by `Connection::prepare`. -/
structure PreparedStmt where
  token : Nat
deriving DecidableEq

/-- Opaque native `Rows` object produced by `Statement::query`. -/
structure NativeRows where
  token : Nat
deriving DecidableEq

/-- Which native open routine `open` invokes. -/
inductive NativeCall where
  | openInMemoryWithFlags (config : Config)
  | openWithFlags (path : String) (config : Config)
deriving DecidableEq

/-- The dispatch in `open` (lines 215-218): `match path { ":memory:" =>
Connection::open_in_memory_with_flags(config), _ =>
Connection::open_with_flags(path, config) }`. -/
def nativeOpenCall (path : String) (config : Config) : NativeCall :=
  match path with
  | ":memory:" => NativeCall.openInMemoryWithFlags config
  | _ => NativeCall.openWithFlags path config

/-- The `Conns` static: `connections: HashMap<u64, (Mutex<_>, u32)>`
(slot = native connection plus the `u32` thread-count metadata), and the
`lifetime_connections` counter.  The counter is `u64` in the source;
exhaustion of the 64-bit space is declared a fatal, practically
unreachable condition by the contract, so it is modelled as `Nat`. -/
structure Conns where
  connections : Nat → Option (NativeConn × Nat)
  lifetime_connections : Nat

/-- The `Qrys` static: `queries: HashMap<u64, Mutex<Rows>>` and the
`lifetime_queries` counter (also `u64` in the source). -/
structure Qrys where
  queries : Nat → Option NativeRows
  lifetime_queries : Nat

/-- The two process-wide registry tables (`CONNECTIONS` and `QUERIES`),
after `load` has initialized them. -/
structure State where
  conns : Conns
  qrys : Qrys

/-- The state `load` installs: both tables empty, both counters `0`. -/
def load : State :=
  ⟨⟨fun _ => none, 0⟩, ⟨fun _ => none, 0⟩⟩

/-- Outcome of a NIF call: the `(ok, val)` tuple, the `(error, msg)`
tuple, or a Rust panic (a failing `.unwrap()`). -/
inductive NifResult (α : Type) where
  | ok (val : α)
  | error (msg : String)
  | panic
deriving DecidableEq

/-- The bare `ok` acknowledgement returned by `close`. -/
inductive Ack where
  | ok
deriving DecidableEq

/-- The `open` NIF (lines 135-229).  `engine` is the external native
open routine; it is consulted only when the config build did not panic,
at exactly the call `nativeOpenCall path config`.  On engine success the
connection counter is incremented and the new slot `(connection,
thread_count)` is stored under the new counter value, which is returned;
on engine failure the error message is returned verbatim and the state
is untouched. -/
def openConnection (s : State) (path : String) (cfg : ConfigMap)
    (engine : NativeCall → Except String NativeConn) : NifResult Nat × State :=
  match buildConfig cfg with
  | none => (NifResult.panic, s)
  | some (config, thread_count) =>
    match engine (nativeOpenCall path config) with
    | Except.ok connection =>
      let n := s.conns.lifetime_connections + 1
      (NifResult.ok n,
       { s with
         conns :=
           { connections := fun j => if j = n then some (connection, thread_count)
               else s.conns.connections j,
             lifetime_connections := n } })
    | Except.error err => (NifResult.error err, s)

/-- The `close` NIF (lines 231-240): removes the entry for `conn_id`
from the connections table (a no-op if absent) and returns `ok`. -/
def close (s : State) (conn_id : Nat) : Ack × State :=
  (Ack.ok,
   { s with
     conns :=
       { s.conns with
         connections := fun j => if j = conn_id then none else s.conns.connections j } })

/-- The `query` NIF (lines 242-259).  The connection lookup is
`.get(&conn_id).unwrap()`: a missing identifier panics.  `prepare`
models `Connection::prepare` and `exec` models `Statement::query`
applied to the bound-parameter list; the source always executes
`stmt.query([])`, so `exec` is invoked on `[]` and the `params` argument
is never consulted.  On success the cursor is stored in the queries
table under the incremented query counter, which is returned. -/
def query (s : State) (conn_id : Nat) (qry : String) (params : List Term)
    (prepare : NativeConn → String → Except String PreparedStmt)
    (exec : PreparedStmt → List Term → Except String NativeRows) :
    NifResult Nat × State :=
  match s.conns.connections conn_id with
  | none => (NifResult.panic, s)
  | some slot =>
    match prepare slot.1 qry with
    | Except.error err => (NifResult.error err, s)
    | Except.ok stmt =>
      match exec stmt [] with
      | Except.error err => (NifResult.error err, s)
      | Except.ok result =>
        let n := s.qrys.lifetime_queries + 1
        (NifResult.ok n,
         { s with
           qrys :=
             { queries := fun j => if j = n then some result else s.qrys.queries j,
               lifetime_queries := n } })

/-- The `number_of_threads` NIF (lines 345-348):
`.get(&conn_id).unwrap().1`; a missing identifier panics (`none`). -/
def number_of_threads (s : State) (conn_id : Nat) : Option Nat :=
  (s.conns.connections conn_id).map fun slot => slot.2

/-- One NIF call in a history: an `open` (with its external engine
oracle), a `close`, or a `query` (with its external prepare/execute
oracles). -/
inductive Event where
  | openEv (path : String) (cfg : ConfigMap) (engine : NativeCall → Except String NativeConn)
  | closeEv (conn_id : Nat)
  | queryEv (conn_id : Nat) (qry : String) (params : List Term)
      (prepare : NativeConn → String → Except String PreparedStmt)
      (exec : PreparedStmt → List Term → Except String NativeRows)

/-- Execute one event: the successor state, and the connection
identifier returned when the event is a successful `open`. -/
def step (s : State) : Event → State × Option Nat
  | Event.openEv path cfg engine =>
    match openConnection s path cfg engine with
    | (NifResult.ok n, s') => (s', some n)
    | (_, s') => (s', none)
  | Event.closeEv conn_id => ((close s conn_id).2, none)
  | Event.queryEv conn_id qry params prepare exec =>
    ((query s conn_id qry params prepare exec).2, none)

/-- Execute a sequence of events. -/
def run (s : State) : List Event → State
  | [] => s
  | e :: tr => run (step s e).1 tr

/-- The connection identifiers returned by the successful `open` calls
of a history, in order. -/
def openedIds (s : State) : List Event → List Nat
  | [] => []
  | e :: tr =>
    match (step s e).2 with
    | some n => n :: openedIds (step s e).1 tr
    | none => openedIds (step s e).1 tr

/-- Whether an event is an `open` that succeeds: the config build does
not panic and the engine reports success.  This depends only on the
event, not on the registry state. -/
def isSuccOpen : Event → Bool
  | Event.openEv path cfg engine =>
    match buildConfig cfg with
    | some (config, _) =>
      match engine (nativeOpenCall path config) with
      | Except.ok _ => true
      | Except.error _ => false
    | none => false
  | _ => false

/-- Whether an event is a `query` call (a use operation). -/
def isQueryEv : Event → Bool
  | Event.queryEv _ _ _ _ _ => true
  | _ => false

/-- A concrete engine oracle that always succeeds. -/
def engineOkW : NativeCall → Except String NativeConn :=
  fun _ => Except.ok ⟨0⟩

/-- A concrete engine oracle that succeeds only on the in-memory
routine. -/
def engineMemOnlyW : NativeCall → Except String NativeConn
  | NativeCall.openInMemoryWithFlags _ => Except.ok ⟨0⟩
  | NativeCall.openWithFlags _ _ => Except.error "file engine unavailable"

/-- A concrete engine oracle that always fails. -/
def engineFailW : NativeCall → Except String NativeConn :=
  fun _ => Except.error "boom"

/-- A concrete prepare oracle that always succeeds. -/
def prepareOkW : NativeConn → String → Except String PreparedStmt :=
  fun _ _ => Except.ok ⟨0⟩

/-- A concrete prepare oracle that always fails. -/
def prepareFailW : NativeConn → String → Except String PreparedStmt :=
  fun _ _ => Except.error "prep failed"

/-- A concrete execute oracle that always succeeds. -/
def execOkW : PreparedStmt → List Term → Except String NativeRows :=
  fun _ _ => Except.ok ⟨0⟩

/-- A concrete execute oracle that always fails. -/
def execFailW : PreparedStmt → List Term → Except String NativeRows :=
  fun _ _ => Except.error "exec failed"

/-- The empty configuration map. -/
def emptyCfg : ConfigMap := fun _ => none

/-- A configuration map binding `maximum_threads` to an atom, which
fails to decode as `u32`. -/
def cfgBadThreadsW : ConfigMap :=
  fun k => if k = "maximum_threads" then some (Term.atom "bad") else none

/-- A configuration map binding `maximum_threads` to the integer 4. -/
def cfgThreads4W : ConfigMap :=
  fun k => if k = "maximum_threads" then some (Term.int 4) else none

/-- A configuration map binding `access_mode` to an integer, which fails
to decode as an atom. -/
def cfgBadAccessW : ConfigMap :=
  fun k => if k = "access_mode" then some (Term.int 7) else none

/-- A registry state holding one connection under identifier 1. -/
def stateOneConnW : State :=
  ⟨⟨fun j => if j = 1 then some (⟨0⟩, 0) else none, 1⟩, ⟨fun _ => none, 0⟩⟩

/-- A panicking config build makes `open` panic with the state
untouched. -/
theorem openConnection_of_buildConfig_none (s : State) (path : String) (cfg : ConfigMap)
    (engine : NativeCall → Except String NativeConn) (h : buildConfig cfg = none) :
    openConnection s path cfg engine = (NifResult.panic, s) := by
  unfold openConnection
  rw [h]

/-- A failing native open makes `open` return the engine's message with
the state untouched. -/
theorem openConnection_of_engine_error (s : State) (path : String) (cfg : ConfigMap)
    (engine : NativeCall → Except String NativeConn) (config : Config) (tc : Nat) (msg : String)
    (hbc : buildConfig cfg = some (config, tc))
    (he : engine (nativeOpenCall path config) = Except.error msg) :
    openConnection s path cfg engine = (NifResult.error msg, s) := by
  simp [openConnection, hbc, he]

/-- Anatomy of a successful `open`: the config build succeeded, the
engine succeeded on the dispatched call, the returned identifier is the
incremented counter, the new slot holds the connection and the resolved
thread count, all other connection slots and the whole queries table are
untouched. -/
theorem openConnection_ok_elim (s : State) (path : String) (cfg : ConfigMap)
    (engine : NativeCall → Except String NativeConn) (n : Nat) (s' : State)
    (h : openConnection s path cfg engine = (NifResult.ok n, s')) :
    ∃ config tc conn,
      buildConfig cfg = some (config, tc) ∧
      engine (nativeOpenCall path config) = Except.ok conn ∧
      n = s.conns.lifetime_connections + 1 ∧
      s'.conns.lifetime_connections = n ∧
      s'.conns.connections n = some (conn, tc) ∧
      (∀ j, j ≠ n → s'.conns.connections j = s.conns.connections j) ∧
      s'.qrys = s.qrys := by
  cases hbc : buildConfig cfg with
  | none =>
    rw [openConnection_of_buildConfig_none s path cfg engine hbc] at h
    exact absurd h (by simp)
  | some ct =>
    obtain ⟨config, tc⟩ := ct
    cases he : engine (nativeOpenCall path config) with
    | error err =>
      rw [openConnection_of_engine_error s path cfg engine config tc err hbc he] at h
      exact absurd h (by simp)
    | ok conn =>
      have hopen : openConnection s path cfg engine =
          (NifResult.ok (s.conns.lifetime_connections + 1),
           { s with
             conns :=
               { connections := fun j => if j = s.conns.lifetime_connections + 1
                   then some (conn, tc) else s.conns.connections j,
                 lifetime_connections := s.conns.lifetime_connections + 1 } }) := by
        simp [openConnection, hbc, he]
      rw [hopen] at h
      simp only [Prod.mk.injEq, NifResult.ok.injEq] at h
      obtain ⟨hn, hs⟩ := h
      subst hn
      subst hs
      refine ⟨config, tc, conn, rfl, he, rfl, rfl, by simp, ?_, rfl⟩
      intro j hj
      exact if_neg hj

/-- `query` never touches the connections table. -/
theorem query_conns (s : State) (conn_id : Nat) (qry : String) (params : List Term)
    (prepare : NativeConn → String → Except String PreparedStmt)
    (exec : PreparedStmt → List Term → Except String NativeRows) :
    ((query s conn_id qry params prepare exec).2).conns = s.conns := by
  unfold query
  cases s.conns.connections conn_id with
  | none => rfl
  | some slot =>
    dsimp only
    cases prepare slot.1 qry with
    | error err => rfl
    | ok stmt =>
      dsimp only
      cases exec stmt [] with
      | error err => rfl
      | ok result => rfl

/-- `close` never touches the queries table or the connection
counter. -/
theorem close_frame (s : State) (conn_id : Nat) :
    ((close s conn_id).2).qrys = s.qrys ∧
    ((close s conn_id).2).conns.lifetime_connections = s.conns.lifetime_connections := by
  exact ⟨rfl, rfl⟩

/-- How one step moves the connection counter and what it returns: a
successful `open` returns exactly the incremented counter and installs
it; every other event returns nothing and leaves the counter alone. -/
theorem step_spec (s : State) (e : Event) :
    (isSuccOpen e = true →
       (step s e).2 = some (s.conns.lifetime_connections + 1) ∧
       (step s e).1.conns.lifetime_connections = s.conns.lifetime_connections + 1) ∧
    (isSuccOpen e = false →
       (step s e).2 = none ∧
       (step s e).1.conns.lifetime_connections = s.conns.lifetime_connections) := by
  cases e with
  | openEv path cfg engine =>
    cases hbc : buildConfig cfg with
    | none => simp [isSuccOpen, step, openConnection, hbc]
    | some ct =>
      obtain ⟨config, tc⟩ := ct
      cases he : engine (nativeOpenCall path config) with
      | ok conn => simp [isSuccOpen, step, openConnection, hbc, he]
      | error err => simp [isSuccOpen, step, openConnection, hbc, he]
  | closeEv conn_id => exact ⟨by intro h; simp [isSuccOpen] at h, fun _ => ⟨rfl, rfl⟩⟩
  | queryEv conn_id qry params prepare exec =>
    refine ⟨by intro h; simp [isSuccOpen] at h, fun _ => ⟨rfl, ?_⟩⟩
    show ((query s conn_id qry params prepare exec).2).conns.lifetime_connections = _
    rw [query_conns]

/-- The identifiers returned by the successful `open` calls of any
history are the consecutive integers right above the starting
counter. -/
theorem openedIds_eq (tr : List Event) :
    ∀ s : State,
      openedIds s tr =
        List.range' (s.conns.lifetime_connections + 1) (tr.countP isSuccOpen) := by
  induction tr with
  | nil => intro s; rfl
  | cons e tr ih =>
    intro s
    cases hso : isSuccOpen e with
    | false =>
      obtain ⟨hret, hcnt⟩ := (step_spec s e).2 hso
      simp only [openedIds, hret, List.countP_cons, hso, ih, hcnt]
      simp
    | true =>
      obtain ⟨hret, hcnt⟩ := (step_spec s e).1 hso
      simp only [openedIds, hret, List.countP_cons, hso, ih, hcnt]
      simp [List.range'_succ]

/-- The thread count resolved by a successful config build: the decoded
`maximum_threads` value when the key is present, the placeholder `0`
when it is absent. -/
theorem buildConfig_thread_count (cfg : ConfigMap) (config : Config) (tc : Nat)
    (h : buildConfig cfg = some (config, tc)) :
    (match cfg "maximum_threads" with
     | some v => decodeU32 v
     | none => some 0) = some tc := by
  unfold buildConfig at h
  cases h1 : applyMaximumMemory cfg (applyAccessMode cfg Config.default) with
  | none => rw [h1] at h; simp at h
  | some c1 =>
    rw [h1] at h
    rw [Option.some_bind] at h
    cases h2 : applyMaximumThreads cfg c1 with
    | none => rw [h2] at h; simp at h
    | some ct =>
      rw [h2] at h
      rw [Option.some_bind] at h
      have hct : ct.2 = tc := by
        cases h3 : applyEnableExternalAccess cfg
            (applyDefaultNullOrder cfg (applyDefaultOrderType cfg ct.1)) with
        | none => rw [h3] at h; simp at h
        | some c4 =>
          rw [h3] at h
          rw [Option.some_bind] at h
          cases h4 : applyObjectCacheEnable cfg c4 with
          | none => rw [h4] at h; simp at h
          | some c5 =>
            rw [h4] at h
            rw [Option.some_bind] at h
            cases h5 : applyAllowUnsignedExtensions cfg c5 with
            | none => rw [h5] at h; simp at h
            | some c6 =>
              rw [h5] at h
              rw [Option.map_some'] at h
              simp only [Option.some.injEq, Prod.mk.injEq] at h
              exact h.2
      unfold applyMaximumThreads at h2
      cases hk : cfg "maximum_threads" with
      | none =>
        rw [hk] at h2
        simp only [Option.some.injEq] at h2
        rw [← hct, ← h2]
      | some v =>
        rw [hk] at h2
        dsimp only at h2 ⊢
        cases hd : decodeU32 v with
        | none => rw [hd] at h2; simp at h2
        | some m =>
          rw [hd] at h2
          rw [Option.map_some'] at h2
          simp only [Option.some.injEq] at h2
          rw [← hct, ← h2]

/-- Running any sequence of `query` calls leaves the connections table
(and its counter) unchanged. -/
theorem run_queries_conns (tr : List Event) :
    ∀ s : State, (∀ e ∈ tr, isQueryEv e = true) → (run s tr).conns = s.conns := by
  induction tr with
  | nil => intro s _; rfl
  | cons e tr ih =>
    intro s htr
    have he := htr e (List.mem_cons_self e tr)
    cases e with
    | openEv path cfg engine => simp [isQueryEv] at he
    | closeEv conn_id => simp [isQueryEv] at he
    | queryEv conn_id qry params prepare exec =>
      show (run (step s (Event.queryEv conn_id qry params prepare exec)).1 tr).conns = s.conns
      rw [ih _ fun e' he' => htr e' (List.mem_cons_of_mem _ he')]
      exact query_conns s conn_id qry params prepare exec

/-- A `maximum_memory` value failing to decode as `u32` makes the whole
config build panic. -/
theorem buildConfig_none_of_bad_maximum_memory (cfg : ConfigMap) (v : Term)
    (hv : cfg "maximum_memory" = some v) (hd : decodeU32 v = none) :
    buildConfig cfg = none := by
  have hstep : ∀ c, applyMaximumMemory cfg c = none := by
    intro c; simp [applyMaximumMemory, hv, hd]
  simp [buildConfig, hstep]

/-- A `maximum_threads` value failing to decode as `u32` makes the whole
config build panic. -/
theorem buildConfig_none_of_bad_maximum_threads (cfg : ConfigMap) (v : Term)
    (hv : cfg "maximum_threads" = some v) (hd : decodeU32 v = none) :
    buildConfig cfg = none := by
  have hstep : ∀ c, applyMaximumThreads cfg c = none := by
    intro c; simp [applyMaximumThreads, hv, hd]
  simp [buildConfig, hstep]

/-- An `enable_external_access` value failing to decode as `bool` makes
the whole config build panic. -/
theorem buildConfig_none_of_bad_enable_external_access (cfg : ConfigMap) (v : Term)
    (hv : cfg "enable_external_access" = some v) (hd : decodeBool v = none) :
    buildConfig cfg = none := by
  have hstep : ∀ c, applyEnableExternalAccess cfg c = none := by
    intro c; simp [applyEnableExternalAccess, hv, hd]
  simp [buildConfig, hstep]

/-- An `object_cache_enable` value failing to decode as `bool` makes the
whole config build panic. -/
theorem buildConfig_none_of_bad_object_cache_enable (cfg : ConfigMap) (v : Term)
    (hv : cfg "object_cache_enable" = some v) (hd : decodeBool v = none) :
    buildConfig cfg = none := by
  have hstep : ∀ c, applyObjectCacheEnable cfg c = none := by
    intro c; simp [applyObjectCacheEnable, hv, hd]
  simp [buildConfig, hstep]

/-- An `allow_unsigned_extensions` value failing to decode as `bool`
makes the whole config build panic. -/
theorem buildConfig_none_of_bad_allow_unsigned_extensions (cfg : ConfigMap) (v : Term)
    (hv : cfg "allow_unsigned_extensions" = some v) (hd : decodeBool v = none) :
    buildConfig cfg = none := by
  have hstep : ∀ c, applyAllowUnsignedExtensions cfg c = none := by
    intro c; simp [applyAllowUnsignedExtensions, hv, hd]
  simp [buildConfig, hstep]

/-- An `access_mode` value that is not an atom is treated exactly as if
the key were absent. -/
theorem buildConfig_ignores_bad_access_mode (cfg : ConfigMap) (v : Term)
    (hv : cfg "access_mode" = some v) (ha : decodeAtom v = none) :
    buildConfig cfg = buildConfig (removeKey cfg "access_mode") := by
  simp [buildConfig, applyAccessMode, applyMaximumMemory, applyMaximumThreads,
    applyDefaultOrderType, applyDefaultNullOrder, applyEnableExternalAccess,
    applyObjectCacheEnable, applyAllowUnsignedExtensions, removeKey, hv, ha]

/-- A `default_order_type` value that is not an atom is treated exactly
as if the key were absent. -/
theorem buildConfig_ignores_bad_default_order_type (cfg : ConfigMap) (v : Term)
    (hv : cfg "default_order_type" = some v) (ha : decodeAtom v = none) :
    buildConfig cfg = buildConfig (removeKey cfg "default_order_type") := by
  simp [buildConfig, applyAccessMode, applyMaximumMemory, applyMaximumThreads,
    applyDefaultOrderType, applyDefaultNullOrder, applyEnableExternalAccess,
    applyObjectCacheEnable, applyAllowUnsignedExtensions, removeKey, hv, ha]

/-- A `default_null_order` value that is not an atom is treated exactly
as if the key were absent. -/
theorem buildConfig_ignores_bad_default_null_order (cfg : ConfigMap) (v : Term)
    (hv : cfg "default_null_order" = some v) (ha : decodeAtom v = none) :
    buildConfig cfg = buildConfig (removeKey cfg "default_null_order") := by
  simp [buildConfig, applyAccessMode, applyMaximumMemory, applyMaximumThreads,
    applyDefaultOrderType, applyDefaultNullOrder, applyEnableExternalAccess,
    applyObjectCacheEnable, applyAllowUnsignedExtensions, removeKey, hv, ha]

/-- Claim C1: starting from the freshly loaded tables, over any
interleaving of open, close and query calls, the identifiers returned by
the successful opens are exactly 1, 2, 3, ... in order: each is strictly
greater than every identifier returned by any earlier successful open,
they start from 1, and no identifier is ever returned twice, even when
closes (including of earlier identifiers) are interleaved. -/
theorem c1_open_ids_strictly_increasing_from_one (tr : List Event) :
    openedIds load tr = List.range' 1 (tr.countP isSuccOpen) ∧
    (openedIds load tr).Pairwise (· < ·) ∧
    (openedIds load tr).Nodup ∧
    ∀ n ∈ openedIds load tr, 1 ≤ n := by
  have h : openedIds load tr = List.range' 1 (tr.countP isSuccOpen) := openedIds_eq tr load
  refine ⟨h, ?_, ?_, ?_⟩
  · rw [h]; exact List.pairwise_lt_range' 1 _
  · rw [h]; exact List.nodup_range' 1 _
  · rw [h]; intro n hn; exact (List.mem_range'_1.mp hn).1

/-- Witness for C1 at a concrete history: one successful open after an
interleaved close, with the membership bound discharged at the returned
identifier 1. -/
theorem c1_witness :
    openedIds load [Event.closeEv 5, Event.openEv ":memory:" emptyCfg engineOkW]
      = List.range' 1
          (List.countP isSuccOpen [Event.closeEv 5, Event.openEv ":memory:" emptyCfg engineOkW]) ∧
    1 ≤ 1 :=
  ⟨(c1_open_ids_strictly_increasing_from_one
      [Event.closeEv 5, Event.openEv ":memory:" emptyCfg engineOkW]).1,
   (c1_open_ids_strictly_increasing_from_one
      [Event.closeEv 5, Event.openEv ":memory:" emptyCfg engineOkW]).2.2.2 1 (by decide)⟩

/-- Claim C2, counterexample: on the freshly loaded state no identifier
was ever issued, yet `query` with identifier 1 panics (the `.unwrap()`
on the table lookup fails) instead of returning an explicit
lookup-failure result to the caller. -/
theorem c2_counterexample_query_unknown_id_panics :
    query load 1 "SELECT 1" [] prepareOkW execOkW = (NifResult.panic, load) := rfl

/-- Claim C2, amended: `query` with an identifier absent from the
connections table — never issued by `open`, or removed by `close` —
panics via `.unwrap()` in the Rust layer rather than returning a
lookup-failure result; the tables are left unchanged by such a call. -/
theorem c2_amended_query_unknown_id_panics (s : State) (conn_id : Nat) (qry : String)
    (params : List Term)
    (prepare : NativeConn → String → Except String PreparedStmt)
    (exec : PreparedStmt → List Term → Except String NativeRows)
    (h : s.conns.connections conn_id = none) :
    query s conn_id qry params prepare exec = (NifResult.panic, s) := by
  unfold query
  rw [h]

/-- Witness for the amended C2 at concrete inputs. -/
theorem c2_amended_witness :
    query load 2 "SELECT 2" [] prepareOkW execOkW = (NifResult.panic, load) :=
  c2_amended_query_unknown_id_panics load 2 "SELECT 2" [] prepareOkW execOkW rfl

/-- Claim C4: `close` returns the `ok` acknowledgement for every
identifier, including never-issued or already-closed ones; closing the
same identifier twice in succession succeeds both times and the second
close is a no-op on the state. -/
theorem c4_close_idempotent_ok (s : State) (conn_id : Nat) :
    (close s conn_id).1 = Ack.ok ∧
    (close (close s conn_id).2 conn_id).1 = Ack.ok ∧
    (close (close s conn_id).2 conn_id).2 = (close s conn_id).2 := by
  refine ⟨rfl, rfl, ?_⟩
  simp only [close, State.mk.injEq, Conns.mk.injEq, and_true, true_and]
  funext j
  by_cases hj : j = conn_id <;> simp [hj]

/-- Claim C8: the `params` argument of `query` has no influence on the
outcome: the source executes the prepared statement as `stmt.query([])`,
so any two parameter lists give the identical result, cursor and
state. -/
theorem c8_params_have_no_influence (s : State) (conn_id : Nat) (qry : String)
    (params1 params2 : List Term)
    (prepare : NativeConn → String → Except String PreparedStmt)
    (exec : PreparedStmt → List Term → Except String NativeRows) :
    query s conn_id qry params1 prepare exec = query s conn_id qry params2 prepare exec := rfl

/-- Claim C9: `close conn_id` changes at most that one connection slot:
the whole queries table (so every cursor slot, including those created
from the closed connection), the connection counter, and every other
connection slot are left unchanged. -/
theorem c9_close_touches_only_its_slot (s : State) (conn_id : Nat) :
    ((close s conn_id).2).qrys = s.qrys ∧
    ((close s conn_id).2).conns.lifetime_connections = s.conns.lifetime_connections ∧
    ∀ j, j ≠ conn_id → ((close s conn_id).2).conns.connections j = s.conns.connections j := by
  refine ⟨rfl, rfl, fun j hj => ?_⟩
  exact if_neg hj

/-- Witness for C9 at concrete inputs. -/
theorem c9_witness :
    ((close stateOneConnW 1).2).qrys = stateOneConnW.qrys ∧
    ((close stateOneConnW 1).2).conns.connections 2 = stateOneConnW.conns.connections 2 :=
  ⟨(c9_close_touches_only_its_slot stateOneConnW 1).1,
   (c9_close_touches_only_its_slot stateOneConnW 1).2.2 2 (by decide)⟩

/-- Claim C3, counterexample: binding `maximum_threads` to an atom —
which fails to decode as `u32` — makes `open` panic, while the same
`open` with the key absent succeeds: the malformed key is neither
silently ignored nor treated as if absent. -/
theorem c3_counterexample_malformed_value_panics :
    openConnection load ":memory:" cfgBadThreadsW engineOkW = (NifResult.panic, load) ∧
    (openConnection load ":memory:" emptyCfg engineOkW).1 = NifResult.ok 1 :=
  ⟨rfl, rfl⟩

/-- Claim C3, amended: a recognized key whose value fails to decode is
not uniformly ignored.  For the atom-typed keys `access_mode`,
`default_order_type` and `default_null_order`, a non-atom value is
silently ignored: `open` behaves exactly as if the key were absent.  But
for `maximum_memory`, `maximum_threads`, `enable_external_access`,
`object_cache_enable` and `allow_unsigned_extensions`, a value that
fails to decode to its expected type (`u32` / `bool`) makes `open` panic
via `.unwrap()` — it aborts instead of falling back to the native
default. -/
theorem c3_amended_decode_failure_policy :
    (∀ (cfg : ConfigMap) (v : Term) (s : State) (path : String)
        (engine : NativeCall → Except String NativeConn),
       cfg "maximum_memory" = some v → decodeU32 v = none →
       openConnection s path cfg engine = (NifResult.panic, s)) ∧
    (∀ (cfg : ConfigMap) (v : Term) (s : State) (path : String)
        (engine : NativeCall → Except String NativeConn),
       cfg "maximum_threads" = some v → decodeU32 v = none →
       openConnection s path cfg engine = (NifResult.panic, s)) ∧
    (∀ (cfg : ConfigMap) (v : Term) (s : State) (path : String)
        (engine : NativeCall → Except String NativeConn),
       cfg "enable_external_access" = some v → decodeBool v = none →
       openConnection s path cfg engine = (NifResult.panic, s)) ∧
    (∀ (cfg : ConfigMap) (v : Term) (s : State) (path : String)
        (engine : NativeCall → Except String NativeConn),
       cfg "object_cache_enable" = some v → decodeBool v = none →
       openConnection s path cfg engine = (NifResult.panic, s)) ∧
    (∀ (cfg : ConfigMap) (v : Term) (s : State) (path : String)
        (engine : NativeCall → Except String NativeConn),
       cfg "allow_unsigned_extensions" = some v → decodeBool v = none →
       openConnection s path cfg engine = (NifResult.panic, s)) ∧
    (∀ (cfg : ConfigMap) (v : Term) (s : State) (path : String)
        (engine : NativeCall → Except String NativeConn),
       cfg "access_mode" = some v → decodeAtom v = none →
       openConnection s path cfg engine
         = openConnection s path (removeKey cfg "access_mode") engine) ∧
    (∀ (cfg : ConfigMap) (v : Term) (s : State) (path : String)
        (engine : NativeCall → Except String NativeConn),
       cfg "default_order_type" = some v → decodeAtom v = none →
       openConnection s path cfg engine
         = openConnection s path (removeKey cfg "default_order_type") engine) ∧
    (∀ (cfg : ConfigMap) (v : Term) (s : State) (path : String)
        (engine : NativeCall → Except String NativeConn),
       cfg "default_null_order" = some v → decodeAtom v = none →
       openConnection s path cfg engine
         = openConnection s path (removeKey cfg "default_null_order") engine) := by
  refine ⟨?_, ?_, ?_, ?_, ?_, ?_, ?_, ?_⟩
  · intro cfg v s path engine hv hd
    exact openConnection_of_buildConfig_none s path cfg engine
      (buildConfig_none_of_bad_maximum_memory cfg v hv hd)
  · intro cfg v s path engine hv hd
    exact openConnection_of_buildConfig_none s path cfg engine
      (buildConfig_none_of_bad_maximum_threads cfg v hv hd)
  · intro cfg v s path engine hv hd
    exact openConnection_of_buildConfig_none s path cfg engine
      (buildConfig_none_of_bad_enable_external_access cfg v hv hd)
  · intro cfg v s path engine hv hd
    exact openConnection_of_buildConfig_none s path cfg engine
      (buildConfig_none_of_bad_object_cache_enable cfg v hv hd)
  · intro cfg v s path engine hv hd
    exact openConnection_of_buildConfig_none s path cfg engine
      (buildConfig_none_of_bad_allow_unsigned_extensions cfg v hv hd)
  · intro cfg v s path engine hv ha
    unfold openConnection
    rw [buildConfig_ignores_bad_access_mode cfg v hv ha]
  · intro cfg v s path engine hv ha
    unfold openConnection
    rw [buildConfig_ignores_bad_default_order_type cfg v hv ha]
  · intro cfg v s path engine hv ha
    unfold openConnection
    rw [buildConfig_ignores_bad_default_null_order cfg v hv ha]

/-- Witness for the amended C3 at concrete inputs: a malformed
`maximum_threads` value makes `open` panic, and a malformed
`access_mode` value makes `open` behave as if the key were absent. -/
theorem c3_amended_witness :
    openConnection load ":memory:" cfgBadThreadsW engineOkW = (NifResult.panic, load) ∧
    openConnection load ":memory:" cfgBadAccessW engineOkW
      = openConnection load ":memory:" (removeKey cfgBadAccessW "access_mode") engineOkW :=
  ⟨c3_amended_decode_failure_policy.2.1 cfgBadThreadsW (Term.atom "bad") load ":memory:"
     engineOkW rfl rfl,
   c3_amended_decode_failure_policy.2.2.2.2.2.1 cfgBadAccessW (Term.int 7) load ":memory:"
     engineOkW rfl rfl⟩

/-- Claim C5: native engine failures are surfaced verbatim and create no
slot: `open` failing at the native open routine, and `query` failing at
the prepare or at the execute stage, each return the engine's own error
message with both tables completely unchanged. -/
theorem c5_native_errors_verbatim_no_slot :
    (∀ (s : State) (path : String) (cfg : ConfigMap)
        (engine : NativeCall → Except String NativeConn) (config : Config) (tc : Nat)
        (msg : String),
       buildConfig cfg = some (config, tc) →
       engine (nativeOpenCall path config) = Except.error msg →
       openConnection s path cfg engine = (NifResult.error msg, s)) ∧
    (∀ (s : State) (conn_id : Nat) (qry : String) (params : List Term)
        (prepare : NativeConn → String → Except String PreparedStmt)
        (exec : PreparedStmt → List Term → Except String NativeRows)
        (slot : NativeConn × Nat) (msg : String),
       s.conns.connections conn_id = some slot →
       prepare slot.1 qry = Except.error msg →
       query s conn_id qry params prepare exec = (NifResult.error msg, s)) ∧
    (∀ (s : State) (conn_id : Nat) (qry : String) (params : List Term)
        (prepare : NativeConn → String → Except String PreparedStmt)
        (exec : PreparedStmt → List Term → Except String NativeRows)
        (slot : NativeConn × Nat) (stmt : PreparedStmt) (msg : String),
       s.conns.connections conn_id = some slot →
       prepare slot.1 qry = Except.ok stmt →
       exec stmt [] = Except.error msg →
       query s conn_id qry params prepare exec = (NifResult.error msg, s)) := by
  refine ⟨openConnection_of_engine_error, ?_, ?_⟩
  · intro s conn_id qry params prepare exec slot msg hslot hprep
    unfold query
    rw [hslot]
    dsimp only
    rw [hprep]
  · intro s conn_id qry params prepare exec slot stmt msg hslot hprep hexec
    unfold query
    rw [hslot]
    dsimp only
    rw [hprep]
    dsimp only
    rw [hexec]

/-- Witness for C5 at concrete inputs. -/
theorem c5_witness :
    openConnection load ":memory:" emptyCfg engineFailW = (NifResult.error "boom", load) ∧
    query stateOneConnW 1 "SELECT 1" [] prepareFailW execOkW
      = (NifResult.error "prep failed", stateOneConnW) ∧
    query stateOneConnW 1 "SELECT 1" [] prepareOkW execFailW
      = (NifResult.error "exec failed", stateOneConnW) :=
  ⟨c5_native_errors_verbatim_no_slot.1 load ":memory:" emptyCfg engineFailW
     Config.default 0 "boom" rfl rfl,
   c5_native_errors_verbatim_no_slot.2.1 stateOneConnW 1 "SELECT 1" [] prepareFailW execOkW
     (⟨0⟩, 0) "prep failed" rfl rfl,
   c5_native_errors_verbatim_no_slot.2.2 stateOneConnW 1 "SELECT 1" [] prepareOkW execFailW
     (⟨0⟩, 0) ⟨0⟩ "exec failed" rfl rfl rfl⟩

/-- Claim C6: a connection opened with `maximum_threads` bound to a
value that decodes as a `u32` value `n` records `n` as its slot
metadata: `number_of_threads` returns exactly `n`, and still returns `n`
after any sequence of subsequent `query` calls — the value is fixed at
open time, not a live reading. -/
theorem c6_thread_count_fixed_at_open (s : State) (path : String) (cfg : ConfigMap)
    (engine : NativeCall → Except String NativeConn) (v : Term) (n conn_id : Nat) (s' : State)
    (hv : cfg "maximum_threads" = some v) (hd : decodeU32 v = some n)
    (hopen : openConnection s path cfg engine = (NifResult.ok conn_id, s'))
    (tr : List Event) (htr : ∀ e ∈ tr, isQueryEv e = true) :
    number_of_threads (run s' tr) conn_id = some n := by
  obtain ⟨config, tc, conn, hbc, he, hn, hcnt, hslot, hframe, hq⟩ :=
    openConnection_ok_elim s path cfg engine conn_id s' hopen
  have ht := buildConfig_thread_count cfg config tc hbc
  rw [hv] at ht
  dsimp only at ht
  rw [hd] at ht
  have htc : tc = n := by injection ht with ht'; exact ht'.symm
  unfold number_of_threads
  rw [run_queries_conns tr s' htr, hslot, htc]
  rfl

/-- Witness for C6 at concrete inputs: open with `maximum_threads = 4`,
run one query, and the thread count is still 4. -/
theorem c6_witness :
    number_of_threads
      (run (openConnection load ":memory:" cfgThreads4W engineOkW).2
        [Event.queryEv 1 "SELECT 1" [] prepareOkW execOkW]) 1 = some 4 :=
  c6_thread_count_fixed_at_open load ":memory:" cfgThreads4W engineOkW (Term.int 4) 4 1
    (openConnection load ":memory:" cfgThreads4W engineOkW).2 rfl (by decide) rfl
    [Event.queryEv 1 "SELECT 1" [] prepareOkW execOkW]
    (by intro e he; rw [List.mem_singleton] at he; subst he; rfl)

/-- Claim C7: `open` dispatches on the path: the distinguished sentinel
":memory:" selects the native in-memory open routine, any other path
selects the file-backed routine with that path, and — whenever the
config build does not panic — `open` consults the engine only at that
one dispatched call, for every configuration map. -/
theorem c7_memory_sentinel_dispatch :
    (∀ config : Config,
       nativeOpenCall ":memory:" config = NativeCall.openInMemoryWithFlags config) ∧
    (∀ (path : String) (config : Config), path ≠ ":memory:" →
       nativeOpenCall path config = NativeCall.openWithFlags path config) ∧
    (∀ (s : State) (path : String) (cfg : ConfigMap)
        (engine engine' : NativeCall → Except String NativeConn) (config : Config) (tc : Nat),
       buildConfig cfg = some (config, tc) →
       engine (nativeOpenCall path config) = engine' (nativeOpenCall path config) →
       openConnection s path cfg engine = openConnection s path cfg engine') := by
  refine ⟨fun config => rfl, ?_, ?_⟩
  · intro path config hpath
    unfold nativeOpenCall
    split
    · simp_all
    · rfl
  · intro s path cfg engine engine' config tc hbc hagree
    unfold openConnection
    rw [hbc]
    dsimp only
    rw [hagree]

/-- Witness for C7 at concrete inputs. -/
theorem c7_witness :
    nativeOpenCall "conn.db" Config.default
      = NativeCall.openWithFlags "conn.db" Config.default ∧
    openConnection load ":memory:" emptyCfg engineOkW
      = openConnection load ":memory:" emptyCfg engineMemOnlyW :=
  ⟨c7_memory_sentinel_dispatch.2.1 "conn.db" Config.default (by decide),
   c7_memory_sentinel_dispatch.2.2 load ":memory:" emptyCfg engineOkW engineMemOnlyW
     Config.default 0 rfl rfl⟩

/-- Claim C10: a successful `open` whose configuration map lacks the
`maximum_threads` key records the initial placeholder `0` as the slot's
thread count, so `number_of_threads` on the returned identifier yields
exactly 0 (the engine's own default worker-thread count is never
consulted). -/
theorem c10_missing_threads_key_gives_zero (s : State) (path : String) (cfg : ConfigMap)
    (engine : NativeCall → Except String NativeConn) (conn_id : Nat) (s' : State)
    (hk : cfg "maximum_threads" = none)
    (hopen : openConnection s path cfg engine = (NifResult.ok conn_id, s')) :
    number_of_threads s' conn_id = some 0 := by
  obtain ⟨config, tc, conn, hbc, he, hn, hcnt, hslot, hframe, hq⟩ :=
    openConnection_ok_elim s path cfg engine conn_id s' hopen
  have ht := buildConfig_thread_count cfg config tc hbc
  rw [hk] at ht
  dsimp only at ht
  have htc : tc = 0 := by injection ht with ht'; exact ht'.symm
  unfold number_of_threads
  rw [hslot, htc]
  rfl

/-- Witness for C10 at concrete inputs. -/
theorem c10_witness :
    number_of_threads (openConnection load ":memory:" emptyCfg engineOkW).2 1 = some 0 :=
  c10_missing_threads_key_gives_zero load ":memory:" emptyCfg engineOkW 1
    (openConnection load ":memory:" emptyCfg engineOkW).2 rfl rfl

end Duckling
